import Mathlib

/-!
# Critical-Thinker: the client-side orchestration of `frontend/src/App.jsx`

A shallow embedding of the `App` component's state (its nine `useState` slots), of
the two asynchronous handlers `handleAnalyze` and `handleDownload`, and of the part
of the render function that gates them (the `disabled` attributes of the buttons,
`activeAnalysis`, and the analysis card).

An asynchronous handler is split at its single `await fetch(...)`: the part that
runs synchronously when the handler is invoked (`...Start`, returning the request
it issues, if any) and the continuation that runs when the promise settles
(`...Settle`).  State setters assign absolute values, so the continuation is a
function of the service's behaviour applied to whatever the state is at that
moment; what happens while the request is in flight (user events, and the
continuation of an export started earlier, which writes the same `error` slot) is
applied in between.
-/

namespace CriticalThinker

/-! ## JavaScript values -/

/-- The JavaScript values the component handles: what `JSON.parse` can produce,
plus `undefined` (the value of a missing property).  Numbers are kept as integers:
the program only ever tests a number for truthiness. -/
inductive JsVal where
  | undefined : JsVal
  | null : JsVal
  | bool (b : Bool) : JsVal
  | num (n : Int) : JsVal
  | str (s : String) : JsVal
  | arr (items : List JsVal) : JsVal
  | obj (fields : List (String × JsVal)) : JsVal

namespace JsVal

/-- JavaScript truthiness (`Boolean(v)`, `!v`, `v || w`, `if (v)`). -/
def truthy : JsVal → Bool
  | undefined => false
  | null => false
  | bool b => b
  | num n => n != 0
  | str s => s != ""
  | arr _ => true
  | obj _ => true

/-- The values on which a property read throws: `null` and `undefined`. -/
def nullish : JsVal → Bool
  | undefined => true
  | null => true
  | _ => false

/-- Reading property `k` of a value that is neither `null` nor `undefined`, for the
keys the program reads (`detail`, `analysis`, `meta`, `answer_length`, `status`,
`message`, `content` and the four agent keys): an object yields the field or
`undefined`; a boolean, number, string or array has no such property. -/
def get (v : JsVal) (k : String) : JsVal :=
  match v with
  | obj fields => (fields.lookup k).getD undefined
  | _ => undefined

/-- Optional chaining `v?.[k]`: `undefined` when `v` is `null` or `undefined`. -/
def optGet (v : JsVal) (k : String) : JsVal :=
  if v.nullish then undefined else v.get k

/-- The own keys of an object, `Object.keys(v)`. -/
def keys : JsVal → List String
  | obj fields => fields.map Prod.fst
  | _ => []

end JsVal

/-- What the JavaScript engine contributes and the source does not fix: the text of
the `TypeError` raised by reading a property of `null`/`undefined`, and `ToString`
on values that are not strings. -/
structure Engine where
  nullReadMessage : JsVal → String → String
  toStringOther : JsVal → String

/-- The abstract operation `ToString`: the identity on strings. -/
def Engine.toStr (E : Engine) : JsVal → String
  | JsVal.str s => s
  | v => E.toStringOther v

/-- Plain property read `v.k` / `v[k]`: throws a `TypeError` on `null`/`undefined`. -/
def Engine.member (E : Engine) (v : JsVal) (k : String) : Except String JsVal :=
  if v.nullish then Except.error (E.nullReadMessage v k) else Except.ok (v.get k)

mutual
/-- `String(v)` for the values of `JsVal`, as V8 prints them. -/
def v8ToString : JsVal → String
  | JsVal.undefined => "undefined"
  | JsVal.null => "null"
  | JsVal.bool b => if b then "true" else "false"
  | JsVal.num n => toString n
  | JsVal.str s => s
  | JsVal.arr items => v8Join items
  | JsVal.obj _ => "[object Object]"
/-- `Array.prototype.join` with the default separator. -/
def v8Join : List JsVal → String
  | [] => ""
  | [v] => v8Element v
  | v :: w :: rest => v8Element v ++ "," ++ v8Join (w :: rest)
/-- An array element inside `join`: `null` and `undefined` print as nothing. -/
def v8Element : JsVal → String
  | JsVal.undefined => ""
  | JsVal.null => ""
  | v => v8ToString v
end

/-- A sample engine, with the messages V8 gives. -/
def v8 : Engine where
  nullReadMessage v k :=
    "Cannot read properties of " ++
      (match v with
       | JsVal.undefined => "undefined"
       | _ => "null") ++ " (reading \x27" ++ k ++ "\x27)"
  toStringOther := v8ToString

/-! ## Configuration -/

/-- One entry of the `AGENTS` table. -/
structure Agent where
  key : String
  label : String
  description : String

/-- The `AGENTS` constant. -/
def AGENTS : List Agent :=
  [ { key := "science", label := "Science", description := "Feasibility & uncertainty" },
    { key := "economics", label := "Economics", description := "Incentives & externalities" },
    { key := "sociology", label := "Sociology/Humanities",
      description := "Social context & inequality" },
    { key := "ethics", label := "Ethics", description := "Rights & justice" } ]

/-- The keys of the catalog, in order. -/
def agentKeys : List String := AGENTS.map Agent.key

/-- The `API_PREFIX` constant. -/
def API_PREFIX : String := "/api"

/-! ## Component state -/

/-- The two values `setMode` is ever called with: `'text'` and `'pdf'`. -/
inductive Mode where
  | text : Mode
  | pdf : Mode
  deriving DecidableEq, Repr

/-- A browser `File`: a name and its bytes.  Any `File` object is truthy. -/
structure File where
  name : String
  bytes : List Nat
  deriving DecidableEq, Repr

/-- The nine `useState` slots of `App`, with their initial values in `State.init`.
`fileValue = none` is `null`. -/
structure State where
  mode : Mode
  textValue : String
  fileValue : Option File
  analysis : JsVal
  selectedAgent : String
  loading : Bool
  error : String
  downloadLoading : Bool
  answerLength : JsVal

/-- The state on first render. -/
def State.init : State where
  mode := Mode.text
  textValue := ""
  fileValue := none
  analysis := JsVal.null
  selectedAgent := "science"
  loading := false
  error := ""
  downloadLoading := false
  answerLength := JsVal.str "long"

/-! ## Requests -/

/-- A value appended to a `FormData`: a file, or a string (non-file values are
converted with `ToString`). -/
inductive FormValue where
  | file (f : File) : FormValue
  | text (s : String) : FormValue

/-- A request body: the value handed to `JSON.stringify`, or the entries of a
`FormData` (sent as multipart/form-data). -/
inductive Body where
  | json (v : JsVal) : Body
  | form (entries : List (String × FormValue)) : Body

/-- The arguments of a `fetch` call. -/
structure Request where
  url : String
  method : String
  headers : List (String × String)
  body : Body

/-! ## Readiness -/

/-- The code points `String.prototype.trim` strips: ECMAScript WhiteSpace and
LineTerminator. -/
def isJsWhiteSpace (c : Char) : Bool :=
  c.toNat ∈ [0x09, 0x0A, 0x0B, 0x0C, 0x0D, 0x20, 0xA0, 0x1680, 0x2000, 0x2001, 0x2002,
    0x2003, 0x2004, 0x2005, 0x2006, 0x2007, 0x2008, 0x2009, 0x200A, 0x2028, 0x2029,
    0x202F, 0x205F, 0x3000, 0xFEFF]

/-- The characters of `s.trim()`. -/
def jsTrim (s : List Char) : List Char :=
  ((s.dropWhile isJsWhiteSpace).reverse.dropWhile isJsWhiteSpace).reverse

/-- The memo `isReadyToAnalyze`. -/
def isReadyToAnalyze (s : State) : Bool :=
  match s.mode with
  | Mode.text => decide ((jsTrim s.textValue.data).length > 0)
  | Mode.pdf => s.fileValue.isSome

/-! ## handleAnalyze -/

/-- The validation message of `handleAnalyze`. -/
def notReadyMessage : String := "Please enter text or upload a PDF to continue."

/-- The request `handleAnalyze` encodes from the values it closed over. -/
def analyzeRequest (E : Engine) (s : State) : Request :=
  match s.mode, s.fileValue with
  | Mode.pdf, some f =>
    { url := API_PREFIX ++ "/analyze"
      method := "POST"
      headers := []
      body := Body.form [("file", FormValue.file f),
                         ("answer_length", FormValue.text (E.toStr s.answerLength))] }
  | _, _ =>
    { url := API_PREFIX ++ "/analyze"
      method := "POST"
      headers := [("Content-Type", "application/json")]
      body := Body.json (JsVal.obj [("text", JsVal.str s.textValue),
                                    ("answer_length", s.answerLength)]) }

/-- The synchronous part of `handleAnalyze`, up to the `await fetch(...)`: the state
after its setters and the request it issues (`none`: it returned without one). -/
def handleAnalyzeStart (E : Engine) (s : State) : State × Option Request :=
  let s1 := { s with error := "" }
  if !isReadyToAnalyze s then
    ({ s1 with error := notReadyMessage }, none)
  else
    ({ s1 with loading := true, analysis := JsVal.null }, some (analyzeRequest E s))

/-- How the `fetch` of `handleAnalyze` settles: the promise rejects (transport
failure) with an error carrying `message`, or it resolves with a response whose
`ok` flag is given and whose `json()` either rejects (absent or unparseable body,
with the error's message) or resolves with the parsed body. -/
inductive FetchOutcome where
  | rejected (message : String) : FetchOutcome
  | response (ok : Bool) (json : Except String JsVal) : FetchOutcome

/-- The generic message thrown for a non-success response without a usable detail. -/
def analysisFailedMessage : String := "Analysis failed. Please try again."

/-- The fallback of the `catch` clause of `handleAnalyze`. -/
def somethingWrongMessage : String := "Something went wrong. Please try again."

/-- The setters of the success path of `handleAnalyze`, in source order:
`setAnalysis(data.analysis)`, the conditional `setAnswerLength(data.meta.answer_length)`
guarded by `data?.meta?.answer_length`, and `setSelectedAgent('science')`.
Here `a` is the value `data.analysis` evaluated to. -/
def publish (data a : JsVal) (s : State) : State :=
  let s1 := { s with analysis := a }
  let answer := (data.optGet "meta").optGet "answer_length"
  let s2 := if answer.truthy then { s1 with answerLength := answer } else s1
  { s2 with selectedAgent := "science" }

/-- The `try` block of `handleAnalyze` after the `await fetch(...)`: the message of
the error it throws, or the state after its setters.  Every point that can throw
comes before the first setter, so a throw leaves the state as it was.  The final
`document.getElementById('results').scrollIntoView(...)` acts on the section
that `App` always renders and touches no state slot. -/
def analyzeTry (E : Engine) (o : FetchOutcome) (s : State) : Except String State :=
  match o with
  | FetchOutcome.rejected m => Except.error m
  | FetchOutcome.response false body =>
    let detail : JsVal :=
      match body with
      | Except.ok v => v
      | Except.error _ => JsVal.obj []
    match E.member detail "detail" with
    | Except.error m => Except.error m
    | Except.ok d =>
      Except.error (E.toStr (if d.truthy then d else JsVal.str analysisFailedMessage))
  | FetchOutcome.response true body =>
    match body with
    | Except.error m => Except.error m
    | Except.ok data =>
      match E.member data "analysis" with
      | Except.error m => Except.error m
      | Except.ok a => Except.ok (publish data a s)

/-- The continuation of `handleAnalyze` once the `fetch` has settled: the `try`
block, the `catch` clause and the `finally` clause, applied to the current state. -/
def handleAnalyzeSettle (E : Engine) (o : FetchOutcome) (s : State) : State :=
  let s1 :=
    match analyzeTry E o s with
    | Except.ok s2 => s2
    | Except.error m =>
      { s with error := if (JsVal.str m).truthy then m else somethingWrongMessage }
  { s1 with loading := false }

/-! ## handleDownload -/

/-- The request `handleDownload` issues. -/
def downloadRequest (s : State) : Request :=
  { url := API_PREFIX ++ "/generate-pdf"
    method := "POST"
    headers := [("Content-Type", "application/json")]
    body := Body.json (JsVal.obj [("analysis", s.analysis),
                                  ("answer_length", s.answerLength)]) }

/-- The synchronous part of `handleDownload`, up to the `await fetch(...)`. -/
def handleDownloadStart (s : State) : State × Option Request :=
  if !s.analysis.truthy then (s, none)
  else ({ s with downloadLoading := true }, some (downloadRequest s))

/-- How the `fetch` of `handleDownload` settles: the promise rejects with an error
carrying `message`, or it resolves with a response whose `ok` flag is given and
whose `blob()` either rejects (with the error message) or resolves with the bytes. -/
inductive DownloadOutcome where
  | rejected (message : String) : DownloadOutcome
  | response (ok : Bool) (blob : Except String (List Nat)) : DownloadOutcome

/-- A file saved through the temporary anchor element. -/
structure SavedFile where
  name : String
  bytes : List Nat

/-- The `try` block of `handleDownload` after the `await fetch(...)`: the message of
the error it throws, or the file the anchor click saves.  It calls no setter. -/
def downloadTry : DownloadOutcome → Except String SavedFile
  | DownloadOutcome.rejected m => Except.error m
  | DownloadOutcome.response false _ => Except.error "Failed to generate PDF report."
  | DownloadOutcome.response true (Except.error m) => Except.error m
  | DownloadOutcome.response true (Except.ok bytes) =>
    Except.ok { name := "CriticalThinkingReport.pdf", bytes := bytes }

/-- The continuation of `handleDownload` once the `fetch` has settled: the `try`
block, the `catch` clause and the `finally` clause, applied to the current state.
Returns the state and the files saved. -/
def handleDownloadSettle (o : DownloadOutcome) (s : State) : State × List SavedFile :=
  match downloadTry o with
  | Except.ok f => ({ s with downloadLoading := false }, [f])
  | Except.error m =>
    ({ s with error := if (JsVal.str m).truthy then m else "Unable to download the report.",
              downloadLoading := false }, [])

/-! ## What happens while a request is in flight -/

/-- What the user can do through the input panel and the agent tabs while a request
is in flight. -/
inductive UserEvent where
  | setMode (m : Mode) : UserEvent
  | setTextValue (t : String) : UserEvent
  | setFileValue (f : Option File) : UserEvent
  | setAnswerLength (long : Bool) : UserEvent
  | setSelectedAgent (key : String) : UserEvent

/-- The setter each event calls. -/
def applyEvent (s : State) : UserEvent → State
  | UserEvent.setMode m => { s with mode := m }
  | UserEvent.setTextValue t => { s with textValue := t }
  | UserEvent.setFileValue f => { s with fileValue := f }
  | UserEvent.setAnswerLength long =>
    { s with answerLength := JsVal.str (if long then "long" else "short") }
  | UserEvent.setSelectedAgent key => { s with selectedAgent := key }

/-- A step between the start of `handleAnalyze` and its continuation: a user event,
or the settling of an export that was started before the submission (the
continuation of `handleDownload`). -/
inductive InFlight where
  | user (e : UserEvent) : InFlight
  | exportSettled (o : DownloadOutcome) : InFlight

/-- The state after one in-flight step. -/
def applyInFlight (s : State) : InFlight → State
  | InFlight.user e => applyEvent s e
  | InFlight.exportSettled o => (handleDownloadSettle o s).1

/-- Whether the step is an export that settles in its `catch` clause. -/
def InFlight.exportFailure : InFlight → Bool
  | InFlight.user _ => false
  | InFlight.exportSettled o =>
    match downloadTry o with
    | Except.ok _ => false
    | Except.error _ => true

/-- A sequence of in-flight steps, oldest first. -/
def applyEvents (s : State) (evs : List InFlight) : State :=
  evs.foldl applyInFlight s

/-- A complete `handleAnalyze`: the synchronous part, the steps that happen while
the request is in flight, and the continuation when the fetch settles as `o`.
Returns the final state and the requests issued. -/
def handleAnalyze (E : Engine) (s : State) (inflight : List InFlight) (o : FetchOutcome) :
    State × List Request :=
  match handleAnalyzeStart E s with
  | (s1, none) => (s1, [])
  | (s1, some req) => (handleAnalyzeSettle E o (applyEvents s1 inflight), [req])

/-! ## Rendering -/

/-- The `disabled` attribute of the "Download report" button. -/
def downloadDisabled (s : State) : Bool :=
  !s.analysis.truthy || s.downloadLoading

/-- A click on the "Download report" button: a disabled button dispatches no click
event, an enabled one runs `handleDownload`.  React commits the render that follows
a click before the next click is dispatched, so `disabled` is read from the current
state. -/
def clickDownload (s : State) : State × Option Request :=
  if downloadDisabled s then (s, none) else handleDownloadStart s

/-- The expression `analysis?.[selectedAgent]`. -/
def activeAnalysis (s : State) : JsVal :=
  s.analysis.optGet s.selectedAgent

/-- What the analysis card can show. -/
inductive CardBlock where
  | empty : CardBlock
  | errorState (message : JsVal) : CardBlock
  | markdown (content : JsVal) : CardBlock
  | text (t : String) : CardBlock

/-- Strict equality of a value with a string literal, `v === lit`. -/
def JsVal.isStr (v : JsVal) (lit : String) : Bool :=
  match v with
  | JsVal.str s => s == lit
  | _ => false

/-- What React renders for a falsy value left as a child by `v && ...`: the number
zero as the text "0", nothing for `null`, `undefined`, `false` and the empty string. -/
def renderFalsy : JsVal → List CardBlock
  | JsVal.num _ => [CardBlock.text "0"]
  | _ => []

/-- The children of the `analysis-card` element: three independent conditional
blocks, in source order. -/
def analysisCard (s : State) : List CardBlock :=
  (if !s.analysis.truthy then [CardBlock.empty] else []) ++
  (if s.analysis.truthy then
     (if ((activeAnalysis s).optGet "status").isStr "error" then
        [CardBlock.errorState ((activeAnalysis s).get "message")] else [])
   else renderFalsy s.analysis) ++
  (if s.analysis.truthy then
     (if ((activeAnalysis s).optGet "status").isStr "ok" then
        [CardBlock.markdown ((activeAnalysis s).get "content")] else [])
   else renderFalsy s.analysis)

/-! ## Sample states and responses -/

/-- Text mode with the argument of the first scenario typed in. -/
def textState : State :=
  { State.init with textValue := "Taxes should be abolished.", answerLength := JsVal.str "short" }

/-- Text mode with only blanks typed in. -/
def blankState : State :=
  { State.init with textValue := " \n\t " }

/-- A file of the PDF mode. -/
def samplePdf : File := { name := "valid.pdf", bytes := [37, 80, 68, 70] }

/-- An entry with status ok. -/
def okEntry (content : String) : JsVal :=
  JsVal.obj [("status", JsVal.str "ok"), ("content", JsVal.str content)]

/-- An entry with status error. -/
def errorEntry (message : String) : JsVal :=
  JsVal.obj [("status", JsVal.str "error"), ("message", JsVal.str message)]

/-- A result set in which the ethics perspective failed. -/
def sampleAnalysis : JsVal :=
  JsVal.obj [("science", okEntry "S"), ("economics", okEntry "E"),
             ("sociology", okEntry "H"), ("ethics", errorEntry "Model timeout")]

/-- A state holding a result set, with no export in flight. -/
def resultState : State :=
  { textState with analysis := sampleAnalysis }

/-- A state holding a result set while an export is in flight. -/
def exportingState : State :=
  { resultState with downloadLoading := true }

/-- A pdf-mode state with a file selected and stale text left in `textValue`. -/
def pdfState : State :=
  { textState with mode := Mode.pdf, fileValue := some samplePdf }

/-- The state in which the request of a ready `handleAnalyze` is in flight. -/
def submitting (s : State) : State :=
  { s with error := "", loading := true, analysis := JsVal.null }

/-! ## Auxiliary facts -/

theorem mem_dropWhile_of_false {p : Char → Bool} {c : Char} :
    ∀ l : List Char, c ∈ l → p c = false → c ∈ l.dropWhile p := by
  intro l
  induction l with
  | nil => intro h; simp at h
  | cons a t ih =>
    intro h hc
    by_cases ha : p a = true
    · have hne : c ≠ a := by
        intro e
        rw [e, ha] at hc
        exact Bool.noConfusion hc
      have ht : c ∈ t := by
        rcases List.mem_cons.mp h with e | e
        · exact absurd e hne
        · exact e
      simpa [List.dropWhile_cons, ha] using ih ht hc
    · simpa [List.dropWhile_cons, ha] using h

theorem jsTrim_eq_nil_of_blank (l : List Char) (h : ∀ c ∈ l, isJsWhiteSpace c = true) :
    jsTrim l = [] := by
  have h1 : l.dropWhile isJsWhiteSpace = [] := List.dropWhile_eq_nil_iff.mpr h
  simp [jsTrim, h1]

theorem jsTrim_ne_nil_of_nonblank (l : List Char)
    (h : ∃ c ∈ l, isJsWhiteSpace c = false) : jsTrim l ≠ [] := by
  obtain ⟨c, hc, hw⟩ := h
  have h1 : c ∈ l.dropWhile isJsWhiteSpace := mem_dropWhile_of_false l hc hw
  have h2 : c ∈ (l.dropWhile isJsWhiteSpace).reverse := List.mem_reverse.mpr h1
  have h3 := mem_dropWhile_of_false _ h2 hw
  intro e
  have h4 : ((l.dropWhile isJsWhiteSpace).reverse.dropWhile isJsWhiteSpace) = [] := by
    simpa [jsTrim] using e
  rw [h4] at h3
  simp at h3

theorem not_ready_of_blank (s : State)
    (h : (s.mode = Mode.text ∧ ∀ c ∈ s.textValue.data, isJsWhiteSpace c = true) ∨
         (s.mode = Mode.pdf ∧ s.fileValue = none)) :
    isReadyToAnalyze s = false := by
  rcases h with ⟨hm, hb⟩ | ⟨hm, hf⟩
  · simp [isReadyToAnalyze, hm, jsTrim_eq_nil_of_blank _ hb]
  · simp [isReadyToAnalyze, hm, hf]

theorem ready_of_nonblank (s : State) (hm : s.mode = Mode.text)
    (h : ∃ c ∈ s.textValue.data, isJsWhiteSpace c = false) :
    isReadyToAnalyze s = true := by
  have := jsTrim_ne_nil_of_nonblank _ h
  simp [isReadyToAnalyze, hm, List.length_pos, this]

/-- In-flight steps touch neither `analysis` nor `loading`. -/
theorem applyEvents_frame (evs : List InFlight) :
    ∀ s : State, (applyEvents s evs).analysis = s.analysis ∧
      (applyEvents s evs).loading = s.loading := by
  induction evs with
  | nil => intro s; simp [applyEvents]
  | cons e t ih =>
    intro s
    have h := ih (applyInFlight s e)
    have hs : applyEvents s (e :: t) = applyEvents (applyInFlight s e) t := rfl
    rw [hs]
    have hstep : (applyInFlight s e).analysis = s.analysis ∧
        (applyInFlight s e).loading = s.loading := by
      cases e with
      | user u => cases u <;> simp [applyInFlight, applyEvent]
      | exportSettled o =>
        simp only [applyInFlight, handleDownloadSettle]
        cases downloadTry o <;> simp
    exact ⟨h.1.trans hstep.1, h.2.trans hstep.2⟩

theorem applyInFlight_error (s : State) (e : InFlight) :
    (e.exportFailure = false → (applyInFlight s e).error = s.error) ∧
    (e.exportFailure = true → (applyInFlight s e).error ≠ "") := by
  cases e with
  | user u => cases u <;> simp [applyInFlight, applyEvent, InFlight.exportFailure]
  | exportSettled o =>
    simp only [applyInFlight, handleDownloadSettle, InFlight.exportFailure]
    cases downloadTry o with
    | ok f => simp
    | error m =>
      have hne : ("Unable to download the report." : String) ≠ "" := by decide
      by_cases hm : m = "" <;> simp [JsVal.truthy, hm, hne]

/-- Without a failing export among the in-flight steps `error` keeps its value. -/
theorem applyEvents_error_quiet (evs : List InFlight) :
    ∀ s : State, (∀ e ∈ evs, e.exportFailure = false) →
      (applyEvents s evs).error = s.error := by
  induction evs with
  | nil => intro s _; simp [applyEvents]
  | cons e t ih =>
    intro s h
    have hs : applyEvents s (e :: t) = applyEvents (applyInFlight s e) t := rfl
    rw [hs, ih (applyInFlight s e) (fun x hx => h x (List.mem_cons_of_mem _ hx))]
    exact (applyInFlight_error s e).1 (h e (List.mem_cons_self _ _))

/-- A failing export among the in-flight steps leaves `error` non-empty. -/
theorem applyEvents_error_failed (evs : List InFlight) :
    ∀ s : State, (s.error ≠ "" ∨ ∃ e ∈ evs, e.exportFailure = true) →
      (applyEvents s evs).error ≠ "" := by
  induction evs with
  | nil =>
    intro s h
    rcases h with h | ⟨e, he, _⟩
    · simpa [applyEvents] using h
    · simp at he
  | cons e t ih =>
    intro s h
    have hs : applyEvents s (e :: t) = applyEvents (applyInFlight s e) t := rfl
    rw [hs]
    apply ih
    cases hf : e.exportFailure with
    | true => exact Or.inl ((applyInFlight_error s e).2 hf)
    | false =>
      rcases h with h | ⟨x, hx, hxf⟩
      · left
        rw [(applyInFlight_error s e).1 hf]
        exact h
      · rcases List.mem_cons.mp hx with rfl | hx
        · rw [hf] at hxf
          exact Bool.noConfusion hxf
        · exact Or.inr ⟨x, hx, hxf⟩

theorem handleAnalyze_ready (E : Engine) (s : State) (inflight : List InFlight)
    (o : FetchOutcome) (h : isReadyToAnalyze s = true) :
    handleAnalyze E s inflight o =
      (handleAnalyzeSettle E o (applyEvents (submitting s) inflight), [analyzeRequest E s]) := by
  simp [handleAnalyze, handleAnalyzeStart, h, submitting]

theorem handleAnalyze_success (E : Engine) (s : State) (inflight : List InFlight)
    (data : JsVal) (h : isReadyToAnalyze s = true) (hd : data.nullish = false) :
    (handleAnalyze E s inflight (FetchOutcome.response true (Except.ok data))).1 =
      { publish data (data.get "analysis") (applyEvents (submitting s) inflight)
        with loading := false } := by
  rw [handleAnalyze_ready E s inflight _ h]
  simp [handleAnalyzeSettle, analyzeTry, Engine.member, hd]

theorem publish_fields (data a : JsVal) (s : State) :
    (publish data a s).analysis = a ∧ (publish data a s).selectedAgent = "science" ∧
    (publish data a s).error = s.error := by
  by_cases h : ((data.optGet "meta").optGet "answer_length").truthy = true <;>
    simp [publish, h]

/-! ## Claims -/

/-- C1: in every state whose input is not ready (text mode with an empty or
whitespace-only `textValue`, or pdf mode with no file selected) `handleAnalyze`
issues no request, sets `error` to exactly
"Please enter text or upload a PDF to continue." and changes nothing else, so
`loading` keeps its value (it stays false), whatever happens afterwards. -/
theorem handleAnalyze_not_ready (E : Engine) (s : State) (inflight : List InFlight)
    (o : FetchOutcome)
    (h : (s.mode = Mode.text ∧ ∀ c ∈ s.textValue.data, isJsWhiteSpace c = true) ∨
         (s.mode = Mode.pdf ∧ s.fileValue = none)) :
    (handleAnalyzeStart E s).2 = none ∧
    (handleAnalyze E s inflight o).2 = [] ∧
    (handleAnalyze E s inflight o).1 =
      { s with error := "Please enter text or upload a PDF to continue." } ∧
    (handleAnalyze E s inflight o).1.loading = s.loading := by
  have hr := not_ready_of_blank s h
  simp [handleAnalyze, handleAnalyzeStart, hr, notReadyMessage]

/-- Witness of C1: the blank text state. -/
theorem handleAnalyze_not_ready_witness :
    (handleAnalyzeStart v8 blankState).2 = none ∧
    (handleAnalyze v8 blankState [] (FetchOutcome.rejected "Failed to fetch")).2 = [] ∧
    (handleAnalyze v8 blankState [] (FetchOutcome.rejected "Failed to fetch")).1 =
      { blankState with error := "Please enter text or upload a PDF to continue." } ∧
    (handleAnalyze v8 blankState [] (FetchOutcome.rejected "Failed to fetch")).1.loading =
      blankState.loading :=
  handleAnalyze_not_ready v8 blankState [] (FetchOutcome.rejected "Failed to fetch")
    (Or.inl ⟨rfl, by decide⟩)

/-- C7: in every state in which no result set exists (`analysis` is `null`, or any
other falsy value) `handleDownload` is a no-op: it issues no request and returns
the state as it was, so `downloadLoading` and `error` are not modified. -/
theorem handleDownload_without_analysis (s : State) (h : s.analysis.truthy = false) :
    handleDownloadStart s = (s, none) := by
  simp [handleDownloadStart, h]

/-- Witness of C7: the initial state, whose `analysis` is `null`. -/
theorem handleDownload_without_analysis_witness :
    State.init.analysis = JsVal.null ∧ handleDownloadStart State.init = (State.init, none) :=
  ⟨rfl, handleDownload_without_analysis State.init rfl⟩

/-- C3, as stated, fails: `handleDownload` has no `downloadLoading` guard.  Invoked
in a state that holds a result set while an export is in flight it issues another
request to `/api/generate-pdf`, so two invocations before the first resolves
issue two requests. -/
theorem handleDownload_reentrant_counterexample :
    exportingState.downloadLoading = true ∧
    (handleDownloadStart exportingState).2 = some (downloadRequest exportingState) ∧
    (downloadRequest exportingState).url = "/api/generate-pdf" ∧
    (handleDownloadStart resultState).2 = some (downloadRequest resultState) ∧
    (handleDownloadStart (handleDownloadStart resultState).1).2 =
      some (downloadRequest resultState) := by
  refine ⟨rfl, rfl, by decide, rfl, rfl⟩

/-- C3, amended: the "Download report" button is disabled while `downloadLoading`
is true, so a click while an export is in flight runs no handler (no request, no
state change); a click with a result set and no export in flight issues the one
request, and a second click before it resolves issues none. -/
theorem clickDownload_once (s : State) :
    (s.downloadLoading = true → clickDownload s = (s, none)) ∧
    (s.analysis.truthy = true → s.downloadLoading = false →
      (clickDownload s).2 = some (downloadRequest s) ∧
      (clickDownload s).1.downloadLoading = true ∧
      clickDownload (clickDownload s).1 = ((clickDownload s).1, none)) := by
  constructor
  · intro h
    simp [clickDownload, downloadDisabled, h]
  · intro ha hd
    simp [clickDownload, downloadDisabled, handleDownloadStart, ha, hd]

/-- Witness of C3 (amended): the exporting state and the state with a result set. -/
theorem clickDownload_once_witness :
    clickDownload exportingState = (exportingState, none) ∧
    (clickDownload resultState).2 = some (downloadRequest resultState) ∧
    (clickDownload resultState).1.downloadLoading = true ∧
    clickDownload (clickDownload resultState).1 = ((clickDownload resultState).1, none) :=
  ⟨(clickDownload_once exportingState).1 rfl, (clickDownload_once resultState).2 rfl rfl⟩

/-- C8: in every ready state `handleAnalyze` issues exactly one request, a POST to
`/api/analyze`, encoded by the mode alone.  In text mode the body is the JSON of
`text` (the `textValue`, untrimmed) and `answer_length` (the `answerLength`),
whatever `fileValue` holds; in pdf mode the selected file travels as form field
`file` and `answerLength` (converted to a string, unchanged when it is one) as form
field `answer_length`, whatever `textValue` holds. -/
theorem handleAnalyze_request (E : Engine) (s : State) (inflight : List InFlight)
    (o : FetchOutcome) (h : isReadyToAnalyze s = true) :
    (handleAnalyze E s inflight o).2 = [analyzeRequest E s] ∧
    (s.mode = Mode.text →
      analyzeRequest E s =
        { url := "/api/analyze", method := "POST",
          headers := [("Content-Type", "application/json")],
          body := Body.json (JsVal.obj [("text", JsVal.str s.textValue),
                                        ("answer_length", s.answerLength)]) }) ∧
    (s.mode = Mode.pdf →
      ∃ f, s.fileValue = some f ∧
        analyzeRequest E s =
          { url := "/api/analyze", method := "POST", headers := [],
            body := Body.form [("file", FormValue.file f),
                               ("answer_length", FormValue.text (E.toStr s.answerLength))] }) ∧
    (∀ a : String, E.toStr (JsVal.str a) = a) := by
  have hurl : API_PREFIX ++ "/analyze" = "/api/analyze" := by decide
  refine ⟨?_, ?_, ?_, fun _ => rfl⟩
  · rw [handleAnalyze_ready E s inflight o h]
  · intro hm
    simp [analyzeRequest, hm, hurl]
  · intro hm
    cases hf : s.fileValue with
    | none => simp [isReadyToAnalyze, hm, hf] at h
    | some f => exact ⟨f, rfl, by simp [analyzeRequest, hm, hf, hurl]⟩

/-- Witness of C8: pdf mode with a file selected and stale text. -/
theorem handleAnalyze_request_witness :
    isReadyToAnalyze pdfState = true ∧
    (handleAnalyze v8 pdfState [] (FetchOutcome.rejected "Failed to fetch")).2 =
      [{ url := "/api/analyze", method := "POST", headers := [],
         body := Body.form [("file", FormValue.file samplePdf),
                            ("answer_length", FormValue.text "short")] }] := by
  have h := handleAnalyze_request v8 pdfState [] (FetchOutcome.rejected "Failed to fetch") rfl
  obtain ⟨f, hf, hreq⟩ := h.2.2.1 rfl
  have hf2 : f = samplePdf := by
    have : some samplePdf = some f := hf
    exact (Option.some.inj this).symm
  refine ⟨rfl, ?_⟩
  rw [h.1, hreq, hf2]
  rfl

theorem optGet_eq_get (v : JsVal) (k : String) : v.optGet k = v.get k := by
  cases v <;> rfl

theorem truthy_of_get_ne_undefined (v : JsVal) (k : String)
    (h : v.get k ≠ JsVal.undefined) : v.truthy = true := by
  cases v <;> first | rfl | exact absurd rfl h

theorem applyEvents_answerLength (evs : List InFlight) :
    ∀ s t : State, s.answerLength = t.answerLength →
      (applyEvents s evs).answerLength = (applyEvents t evs).answerLength := by
  induction evs with
  | nil => intro s t h; simpa [applyEvents] using h
  | cons e r ih =>
    intro s t h
    have hs : applyEvents s (e :: r) = applyEvents (applyInFlight s e) r := rfl
    have ht : applyEvents t (e :: r) = applyEvents (applyInFlight t e) r := rfl
    rw [hs, ht]
    apply ih
    cases e with
    | user u => cases u <;> simp [applyInFlight, applyEvent, h]
    | exportSettled o =>
      simp only [applyInFlight, handleDownloadSettle]
      cases downloadTry o <;> simpa using h

theorem publish_answerLength (data a : JsVal) (s : State) :
    (publish data a s).answerLength =
      if ((data.get "meta").get "answer_length").truthy then
        (data.get "meta").get "answer_length"
      else s.answerLength := by
  by_cases h : ((data.get "meta").get "answer_length").truthy = true <;>
    simp [publish, optGet_eq_get, h]

/-- C5: whenever `handleAnalyze` publishes a result set (a ready state, a success
response whose body parses to a value other than `null`, so that
`setAnalysis(data.analysis)` runs), the resulting state has `selectedAgent` equal
to `science`, whatever it was before the submission and whatever the user selected
while the request was in flight. -/
theorem handleAnalyze_success_selects_science (E : Engine) (s : State)
    (inflight : List InFlight) (data : JsVal)
    (h : isReadyToAnalyze s = true) (hd : data.nullish = false) :
    (handleAnalyze E s inflight (FetchOutcome.response true (Except.ok data))).1.analysis =
      data.get "analysis" ∧
    (handleAnalyze E s inflight
      (FetchOutcome.response true (Except.ok data))).1.selectedAgent = "science" := by
  rw [handleAnalyze_success E s inflight data h hd]
  have hp := publish_fields data (data.get "analysis") (applyEvents (submitting s) inflight)
  exact ⟨hp.1, hp.2.1⟩

/-- Witness of C5: ethics selected before, economics selected in flight. -/
theorem handleAnalyze_success_selects_science_witness :
    (handleAnalyze v8 { textState with selectedAgent := "ethics" }
      [InFlight.user (UserEvent.setSelectedAgent "economics")]
      (FetchOutcome.response true
        (Except.ok (JsVal.obj [("analysis", sampleAnalysis)])))).1.analysis =
      (JsVal.obj [("analysis", sampleAnalysis)]).get "analysis" ∧
    (handleAnalyze v8 { textState with selectedAgent := "ethics" }
      [InFlight.user (UserEvent.setSelectedAgent "economics")]
      (FetchOutcome.response true
        (Except.ok (JsVal.obj [("analysis", sampleAnalysis)])))).1.selectedAgent = "science" :=
  handleAnalyze_success_selects_science v8 { textState with selectedAgent := "ethics" }
    [InFlight.user (UserEvent.setSelectedAgent "economics")] (JsVal.obj [("analysis", sampleAnalysis)])
    (by decide) rfl

/-- C6: after a successful response whose `meta.answer_length` is `long` or `short`
the `answerLength` state equals that value, whatever was sent in the request; when
the response has no `meta` or no `meta.answer_length`, the submission leaves
`answerLength` as it is (the value the user events produce from the one before the
submission; that very value when no event intervenes). -/
theorem handleAnalyze_adopts_answer_length (E : Engine) (s : State)
    (inflight : List InFlight) (data : JsVal)
    (h : isReadyToAnalyze s = true) (hd : data.nullish = false) :
    (∀ a : String, a = "long" ∨ a = "short" →
      (data.get "meta").get "answer_length" = JsVal.str a →
      (handleAnalyze E s inflight
        (FetchOutcome.response true (Except.ok data))).1.answerLength = JsVal.str a) ∧
    (data.get "meta" = JsVal.undefined ∨
        (data.get "meta").get "answer_length" = JsVal.undefined →
      (handleAnalyze E s inflight
        (FetchOutcome.response true (Except.ok data))).1.answerLength =
          (applyEvents s inflight).answerLength ∧
      (handleAnalyze E s []
        (FetchOutcome.response true (Except.ok data))).1.answerLength = s.answerLength) := by
  constructor
  · intro a ha hv
    rw [handleAnalyze_success E s inflight data h hd]
    have ht : (JsVal.str a).truthy = true := by
      rcases ha with rfl | rfl <;> decide
    simp [publish_answerLength, hv, ht]
  · intro hv
    have hu : (data.get "meta").get "answer_length" = JsVal.undefined := by
      rcases hv with hv | hv
      · rw [hv]; rfl
      · exact hv
    have key : ∀ evs : List InFlight,
        (handleAnalyze E s evs
          (FetchOutcome.response true (Except.ok data))).1.answerLength =
          (applyEvents s evs).answerLength := by
      intro evs
      rw [handleAnalyze_success E s evs data h hd]
      simp only [publish_answerLength, hu, JsVal.truthy]
      exact applyEvents_answerLength evs _ _ rfl
    exact ⟨key inflight, key []⟩

/-- Witness of C6: `short` was sent, the service answers `long`. -/
theorem handleAnalyze_adopts_answer_length_witness :
    textState.answerLength = JsVal.str "short" ∧
    (handleAnalyze v8 textState []
      (FetchOutcome.response true
        (Except.ok (JsVal.obj [("analysis", sampleAnalysis),
          ("meta", JsVal.obj [("answer_length", JsVal.str "long")])])))).1.answerLength =
      JsVal.str "long" :=
  ⟨rfl, (handleAnalyze_adopts_answer_length v8 textState []
      (JsVal.obj [("analysis", sampleAnalysis),
        ("meta", JsVal.obj [("answer_length", JsVal.str "long")])])
      (by decide) rfl).1 "long" (Or.inl rfl) rfl⟩

/-- C9, as stated, fails: the success path stores `data.analysis` unchecked.  A
success response whose `analysis` holds only the `science` entry leaves a result
set whose keys are not the four catalog keys. -/
theorem handleAnalyze_keys_counterexample :
    isReadyToAnalyze textState = true ∧
    (handleAnalyze v8 textState []
      (FetchOutcome.response true
        (Except.ok (JsVal.obj [("analysis",
          JsVal.obj [("science", okEntry "S")])])))).1.analysis.truthy = true ∧
    (handleAnalyze v8 textState []
      (FetchOutcome.response true
        (Except.ok (JsVal.obj [("analysis",
          JsVal.obj [("science", okEntry "S")])])))).1.analysis.keys = ["science"] ∧
    agentKeys = ["science", "economics", "sociology", "ethics"] ∧
    "economics" ∉ ["science"] := by
  refine ⟨by decide, rfl, rfl, rfl, by decide⟩

/-- C9, amended: after a successful `handleAnalyze` the result set is the response
body's `analysis` value, stored as received; so its keys are those of the
response, and they are exactly the four catalog keys whenever the response's
`analysis` has exactly those keys. -/
theorem handleAnalyze_stores_response_analysis (E : Engine) (s : State)
    (inflight : List InFlight) (data : JsVal)
    (h : isReadyToAnalyze s = true) (hd : data.nullish = false) :
    (handleAnalyze E s inflight (FetchOutcome.response true (Except.ok data))).1.analysis =
      data.get "analysis" ∧
    (handleAnalyze E s inflight (FetchOutcome.response true (Except.ok data))).1.analysis.keys =
      (data.get "analysis").keys ∧
    ((∀ k, k ∈ (data.get "analysis").keys ↔ k ∈ agentKeys) →
      ∀ k, k ∈ (handleAnalyze E s inflight
          (FetchOutcome.response true (Except.ok data))).1.analysis.keys ↔ k ∈ agentKeys) := by
  rw [handleAnalyze_success E s inflight data h hd]
  have hp := publish_fields data (data.get "analysis") (applyEvents (submitting s) inflight)
  have ha : ({ publish data (data.get "analysis") (applyEvents (submitting s) inflight)
      with loading := false } : State).analysis = data.get "analysis" := hp.1
  rw [ha]
  exact ⟨rfl, rfl, fun hk => hk⟩

/-- Witness of C9 (amended): a response carrying all four entries. -/
theorem handleAnalyze_stores_response_analysis_witness :
    (handleAnalyze v8 textState []
      (FetchOutcome.response true
        (Except.ok (JsVal.obj [("analysis", sampleAnalysis)])))).1.analysis.keys =
      ["science", "economics", "sociology", "ethics"] :=
  (handleAnalyze_stores_response_analysis v8 textState []
    (JsVal.obj [("analysis", sampleAnalysis)]) (by decide) rfl).2.1

/-- C10, as stated, fails in its first part: `error` does not always stay empty.
An export started before the submission (a click on "Download report" in a state
with a result set) that fails while the analyze request is in flight writes its
message into the one `error` slot, and the success path of `handleAnalyze` leaves
it there next to the new result set. -/
theorem handleAnalyze_export_failure_counterexample :
    (clickDownload resultState).1.downloadLoading = true ∧
    isReadyToAnalyze (clickDownload resultState).1 = true ∧
    (handleAnalyze v8 (clickDownload resultState).1
      [InFlight.exportSettled (DownloadOutcome.response false (Except.ok []))]
      (FetchOutcome.response true
        (Except.ok (JsVal.obj [("analysis", sampleAnalysis)])))).1.error =
      "Failed to generate PDF report." ∧
    (handleAnalyze v8 (clickDownload resultState).1
      [InFlight.exportSettled (DownloadOutcome.response false (Except.ok []))]
      (FetchOutcome.response true
        (Except.ok (JsVal.obj [("analysis", sampleAnalysis)])))).1.analysis =
      sampleAnalysis ∧
    ("Failed to generate PDF report." : String) ≠ "" := by
  refine ⟨rfl, by decide, by decide, rfl, by decide⟩

/-- C10, amended: a per-perspective failure is data.  The success path of
`handleAnalyze` writes nothing to `error`: after any successful response `error`
is empty when no export failed while the request was in flight, and holds an
export message otherwise.  For every catalog key `k`, once `k` is selected,
`activeAnalysis` is the entry of the response for `k`; the card then shows the
`message` of the entry when its status is `error` and its `content` when its
status is `ok`.  In a state without a result set (`analysis` is `null`)
`activeAnalysis` is `undefined` for every `k`. -/
theorem perspective_failure_is_data (E : Engine) (s : State)
    (inflight : List InFlight) (data : JsVal)
    (h : isReadyToAnalyze s = true) (hd : data.nullish = false) :
    ((∀ e ∈ inflight, e.exportFailure = false) →
      (handleAnalyze E s inflight
        (FetchOutcome.response true (Except.ok data))).1.error = "") ∧
    ((∃ e ∈ inflight, e.exportFailure = true) →
      (handleAnalyze E s inflight
        (FetchOutcome.response true (Except.ok data))).1.error ≠ "") ∧
    (∀ k ∈ agentKeys,
      activeAnalysis (applyEvent
          (handleAnalyze E s inflight (FetchOutcome.response true (Except.ok data))).1
          (UserEvent.setSelectedAgent k)) = (data.get "analysis").get k ∧
      (((data.get "analysis").get k).get "status" = JsVal.str "error" →
        analysisCard (applyEvent
          (handleAnalyze E s inflight (FetchOutcome.response true (Except.ok data))).1
          (UserEvent.setSelectedAgent k)) =
          [CardBlock.errorState (((data.get "analysis").get k).get "message")]) ∧
      (((data.get "analysis").get k).get "status" = JsVal.str "ok" →
        analysisCard (applyEvent
          (handleAnalyze E s inflight (FetchOutcome.response true (Except.ok data))).1
          (UserEvent.setSelectedAgent k)) =
          [CardBlock.markdown (((data.get "analysis").get k).get "content")])) ∧
    (∀ k ∈ agentKeys, ∀ s0 : State, s0.analysis = JsVal.null →
      activeAnalysis (applyEvent s0 (UserEvent.setSelectedAgent k)) = JsVal.undefined) := by
  rw [handleAnalyze_success E s inflight data h hd]
  have hp := publish_fields data (data.get "analysis") (applyEvents (submitting s) inflight)
  have herr : ({ publish data (data.get "analysis") (applyEvents (submitting s) inflight)
      with loading := false } : State).error = (applyEvents (submitting s) inflight).error :=
    hp.2.2
  refine ⟨?_, ?_, ?_, ?_⟩
  · intro hq
    rw [herr, applyEvents_error_quiet inflight (submitting s) hq]
    rfl
  · intro hf
    rw [herr]
    exact applyEvents_error_failed inflight (submitting s) (Or.inr hf)
  · intro k _
    have hact : activeAnalysis (applyEvent
        { publish data (data.get "analysis") (applyEvents (submitting s) inflight)
          with loading := false } (UserEvent.setSelectedAgent k)) =
        (data.get "analysis").get k := by
      simp [activeAnalysis, applyEvent, optGet_eq_get, hp.1]
    have han : (applyEvent
        { publish data (data.get "analysis") (applyEvents (submitting s) inflight)
          with loading := false } (UserEvent.setSelectedAgent k)).analysis =
        data.get "analysis" := by
      simp [applyEvent, hp.1]
    have htruthy : ∀ x : String, ((data.get "analysis").get k).get "status" = JsVal.str x →
        (data.get "analysis").truthy = true := by
      intro x hx
      apply truthy_of_get_ne_undefined _ k
      intro hu
      rw [hu] at hx
      exact JsVal.noConfusion hx
    refine ⟨hact, ?_, ?_⟩
    · intro hst
      have ht := htruthy _ hst
      simp [analysisCard, hact, han, ht, optGet_eq_get, hst, JsVal.isStr]
    · intro hst
      have ht := htruthy _ hst
      simp [analysisCard, hact, han, ht, optGet_eq_get, hst, JsVal.isStr]
  · intro k _ s0 h0
    simp [activeAnalysis, applyEvent, h0, JsVal.optGet, JsVal.nullish]

/-- Witness of C10 (amended): the third scenario, with `ethics` and then `economics`
selected. -/
theorem perspective_failure_is_data_witness :
    (handleAnalyze v8 textState []
      (FetchOutcome.response true
        (Except.ok (JsVal.obj [("analysis", sampleAnalysis)])))).1.error = "" ∧
    analysisCard (applyEvent
      (handleAnalyze v8 textState []
        (FetchOutcome.response true
          (Except.ok (JsVal.obj [("analysis", sampleAnalysis)])))).1
      (UserEvent.setSelectedAgent "ethics")) =
      [CardBlock.errorState (JsVal.str "Model timeout")] ∧
    analysisCard (applyEvent
      (handleAnalyze v8 textState []
        (FetchOutcome.response true
          (Except.ok (JsVal.obj [("analysis", sampleAnalysis)])))).1
      (UserEvent.setSelectedAgent "economics")) =
      [CardBlock.markdown (JsVal.str "E")] :=
  ⟨(perspective_failure_is_data v8 textState [] (JsVal.obj [("analysis", sampleAnalysis)])
      (by decide) rfl).1 (by simp),
   ((perspective_failure_is_data v8 textState [] (JsVal.obj [("analysis", sampleAnalysis)])
      (by decide) rfl).2.2.1 "ethics" (by decide)).2.1 rfl,
   ((perspective_failure_is_data v8 textState [] (JsVal.obj [("analysis", sampleAnalysis)])
      (by decide) rfl).2.2.1 "economics" (by decide)).2.2 rfl⟩

theorem settle_of_throw (E : Engine) (o : FetchOutcome) (s : State) (m : String)
    (h : analyzeTry E o s = Except.error m) :
    (handleAnalyzeSettle E o s).analysis = s.analysis ∧
    (handleAnalyzeSettle E o s).error ≠ "" ∧
    (handleAnalyzeSettle E o s).error =
      if m = "" then somethingWrongMessage else m := by
  have hne : somethingWrongMessage ≠ "" := by decide
  by_cases hm : m = ""
  · simp [handleAnalyzeSettle, h, JsVal.truthy, hm, hne]
  · simp [handleAnalyzeSettle, h, JsVal.truthy, hm]

theorem analyzeTry_cases (E : Engine) (o : FetchOutcome) (s : State) :
    (∃ m, analyzeTry E o s = Except.error m ∧
      ¬ ∃ data, o = FetchOutcome.response true (Except.ok data) ∧ data.nullish = false) ∨
    (∃ data, o = FetchOutcome.response true (Except.ok data) ∧ data.nullish = false) := by
  cases o with
  | rejected m =>
    left
    exact ⟨m, rfl, by rintro ⟨d, hd, _⟩; exact FetchOutcome.noConfusion hd⟩
  | response ok body =>
    cases ok with
    | false =>
      left
      have hno : ¬ ∃ data, FetchOutcome.response false body =
          FetchOutcome.response true (Except.ok data) ∧ data.nullish = false := by
        rintro ⟨d, hd, _⟩
        injection hd with h1 _
        exact Bool.noConfusion h1
      cases body with
      | error e =>
        exact ⟨_, by simp [analyzeTry, Engine.member, JsVal.nullish]; rfl, hno⟩
      | ok v =>
        by_cases hv : v.nullish = true
        · exact ⟨_, by simp [analyzeTry, Engine.member, hv]; rfl, hno⟩
        · exact ⟨_, by simp [analyzeTry, Engine.member, hv]; rfl, hno⟩
    | true =>
      cases body with
      | error e =>
        left
        refine ⟨e, rfl, ?_⟩
        rintro ⟨d, hd, _⟩
        injection hd with _ h2
        exact Except.noConfusion h2
      | ok v =>
        by_cases hv : v.nullish = true
        · left
          refine ⟨_, by simp [analyzeTry, Engine.member, hv]; rfl, ?_⟩
          rintro ⟨d, hd, hn⟩
          injection hd with _ h2
          injection h2 with h3
          rw [← h3, hv] at hn
          exact Bool.noConfusion hn
        · right
          exact ⟨v, rfl, by simpa using hv⟩

/-- C2, as stated, fails.  Neither: a success response whose body has no truthy
`analysis` leaves no result set and no failure message (with a body whose
`analysis` is `null` the final `analysis` is `null` and `error` is empty; with the
empty object the final `analysis` is `undefined` and `error` is empty).  Both: when
an export started before the submission fails while the request is in flight, a
success response leaves the result set and the export message in `error`. -/
theorem handleAnalyze_not_exactly_one_counterexample :
    textState.mode = Mode.text ∧ isReadyToAnalyze textState = true ∧
    (handleAnalyze v8 textState []
      (FetchOutcome.response true
        (Except.ok (JsVal.obj [("analysis", JsVal.null)])))).1.analysis = JsVal.null ∧
    (handleAnalyze v8 textState []
      (FetchOutcome.response true
        (Except.ok (JsVal.obj [("analysis", JsVal.null)])))).1.error = "" ∧
    (handleAnalyze v8 textState []
      (FetchOutcome.response true (Except.ok (JsVal.obj [])))).1.analysis = JsVal.undefined ∧
    (handleAnalyze v8 textState []
      (FetchOutcome.response true (Except.ok (JsVal.obj [])))).1.error = "" ∧
    (clickDownload resultState).1.mode = Mode.text ∧
    isReadyToAnalyze (clickDownload resultState).1 = true ∧
    (handleAnalyze v8 (clickDownload resultState).1
      [InFlight.exportSettled (DownloadOutcome.rejected "Failed to fetch")]
      (FetchOutcome.response true
        (Except.ok (JsVal.obj [("analysis", sampleAnalysis)])))).1.analysis.truthy = true ∧
    (handleAnalyze v8 (clickDownload resultState).1
      [InFlight.exportSettled (DownloadOutcome.rejected "Failed to fetch")]
      (FetchOutcome.response true
        (Except.ok (JsVal.obj [("analysis", sampleAnalysis)])))).1.error =
      "Failed to fetch" := by
  refine ⟨rfl, by decide, rfl, rfl, rfl, rfl, rfl, by decide, rfl, by decide⟩

/-- C2, amended: for every state in text mode with a non-blank `textValue`, every
behaviour of the service and everything that happens while the request is in
flight, a completed `handleAnalyze` leaves exactly one of a result set (a truthy
`analysis`) and a failure message (a non-empty `error`), with two exceptions.  It
leaves both exactly when the response is a success with a truthy `analysis` and an
export failed while the request was in flight; it leaves neither exactly when the
response is a success whose body parses to a value other than `null` with no
truthy `analysis`, and no export failed in flight. -/
theorem handleAnalyze_result_or_failure (E : Engine) (s : State)
    (inflight : List InFlight) (o : FetchOutcome)
    (hm : s.mode = Mode.text) (hn : ∃ c ∈ s.textValue.data, isJsWhiteSpace c = false) :
    (((handleAnalyze E s inflight o).1.analysis.truthy = true ∧
        (handleAnalyze E s inflight o).1.error ≠ "") ↔
      (∃ data, o = FetchOutcome.response true (Except.ok data) ∧ data.nullish = false ∧
        (data.get "analysis").truthy = true) ∧
      ∃ e ∈ inflight, e.exportFailure = true) ∧
    (((handleAnalyze E s inflight o).1.analysis.truthy = false ∧
        (handleAnalyze E s inflight o).1.error = "") ↔
      (∃ data, o = FetchOutcome.response true (Except.ok data) ∧ data.nullish = false ∧
        (data.get "analysis").truthy = false) ∧
      ∀ e ∈ inflight, e.exportFailure = false) := by
  have hr := ready_of_nonblank s hm hn
  have hfr := applyEvents_frame inflight (submitting s)
  have hnull : (applyEvents (submitting s) inflight).analysis = JsVal.null := hfr.1
  have hquiet : (∀ e ∈ inflight, e.exportFailure = false) →
      (applyEvents (submitting s) inflight).error = "" := fun hq =>
    applyEvents_error_quiet inflight (submitting s) hq
  have hfail : (∃ e ∈ inflight, e.exportFailure = true) →
      (applyEvents (submitting s) inflight).error ≠ "" := fun hf =>
    applyEvents_error_failed inflight (submitting s) (Or.inr hf)
  have hsome : (applyEvents (submitting s) inflight).error ≠ "" →
      ∃ e ∈ inflight, e.exportFailure = true := by
    intro hne
    by_contra hnone
    apply hne
    apply hquiet
    intro e he
    cases hf : e.exportFailure with
    | false => rfl
    | true => exact absurd ⟨e, he, hf⟩ hnone
  have hall : (applyEvents (submitting s) inflight).error = "" →
      ∀ e ∈ inflight, e.exportFailure = false := by
    intro heq e he
    cases hf : e.exportFailure with
    | false => rfl
    | true => exact absurd heq (hfail ⟨e, he, hf⟩)
  rcases analyzeTry_cases E o (applyEvents (submitting s) inflight) with
    ⟨m, hthrow, hno⟩ | ⟨data, ho, hd⟩
  · rw [handleAnalyze_ready E s inflight o hr]
    have hs := settle_of_throw E o _ m hthrow
    have ha : (handleAnalyzeSettle E o (applyEvents (submitting s) inflight)).analysis.truthy
        = false := by
      rw [hs.1, hnull]; rfl
    constructor
    · constructor
      · rintro ⟨h1, _⟩
        rw [ha] at h1
        exact Bool.noConfusion h1
      · rintro ⟨⟨d, hd1, hd2, _⟩, _⟩
        exact absurd ⟨d, hd1, hd2⟩ hno
    · constructor
      · rintro ⟨_, h2⟩
        exact absurd h2 hs.2.1
      · rintro ⟨⟨d, hd1, hd2, _⟩, _⟩
        exact absurd ⟨d, hd1, hd2⟩ hno
  · subst ho
    rw [handleAnalyze_success E s inflight data hr hd]
    have hp := publish_fields data (data.get "analysis") (applyEvents (submitting s) inflight)
    have ha : ({ publish data (data.get "analysis") (applyEvents (submitting s) inflight)
        with loading := false } : State).analysis = data.get "analysis" := hp.1
    have he : ({ publish data (data.get "analysis") (applyEvents (submitting s) inflight)
        with loading := false } : State).error =
        (applyEvents (submitting s) inflight).error := hp.2.2
    rw [ha, he]
    have hdata : ∀ d : JsVal,
        FetchOutcome.response true (Except.ok data) =
          FetchOutcome.response true (Except.ok d) → d = data := by
      intro d hd1
      injection hd1 with _ h2
      injection h2 with h3
      exact h3.symm
    constructor
    · constructor
      · rintro ⟨h1, h2⟩
        exact ⟨⟨data, rfl, hd, h1⟩, hsome h2⟩
      · rintro ⟨⟨d, hd1, _, hd3⟩, hf⟩
        rw [hdata d hd1] at hd3
        exact ⟨hd3, hfail hf⟩
    · constructor
      · rintro ⟨h1, h2⟩
        exact ⟨⟨data, rfl, hd, h1⟩, hall h2⟩
      · rintro ⟨⟨d, hd1, _, hd3⟩, hq⟩
        rw [hdata d hd1] at hd3
        exact ⟨hd3, hquiet hq⟩

/-- Witness of C2 (amended): the text state and a transport failure. -/
theorem handleAnalyze_result_or_failure_witness :
    (((handleAnalyze v8 textState [] (FetchOutcome.rejected "Failed to fetch")).1.analysis.truthy
          = true ∧
        (handleAnalyze v8 textState [] (FetchOutcome.rejected "Failed to fetch")).1.error ≠ "") ↔
      (∃ data, FetchOutcome.rejected "Failed to fetch" =
          FetchOutcome.response true (Except.ok data) ∧ data.nullish = false ∧
        (data.get "analysis").truthy = true) ∧
      ∃ e ∈ ([] : List InFlight), e.exportFailure = true) ∧
    (((handleAnalyze v8 textState [] (FetchOutcome.rejected "Failed to fetch")).1.analysis.truthy
          = false ∧
        (handleAnalyze v8 textState [] (FetchOutcome.rejected "Failed to fetch")).1.error = "") ↔
      (∃ data, FetchOutcome.rejected "Failed to fetch" =
          FetchOutcome.response true (Except.ok data) ∧ data.nullish = false ∧
        (data.get "analysis").truthy = false) ∧
      ∀ e ∈ ([] : List InFlight), e.exportFailure = false) :=
  handleAnalyze_result_or_failure v8 textState [] (FetchOutcome.rejected "Failed to fetch")
    rfl ⟨'T', by decide, by decide⟩

/-- The part of C4 the code keeps: for a ready state and a non-success response
whose body is absent or unparseable, or parses to a value other than `null`, the
failure message is the body's `detail` when that is a non-empty string and the
generic message when the body has no truthy `detail`; no result set is left. -/
theorem handleAnalyze_error_detail (E : Engine) (s : State) (inflight : List InFlight)
    (h : isReadyToAnalyze s = true) :
    (∀ (data : JsVal) (d : String), data.nullish = false →
      data.get "detail" = JsVal.str d → d ≠ "" →
      (handleAnalyze E s inflight
        (FetchOutcome.response false (Except.ok data))).1.error = d ∧
      (handleAnalyze E s inflight
        (FetchOutcome.response false (Except.ok data))).1.analysis = JsVal.null) ∧
    (∀ data : JsVal, data.nullish = false → (data.get "detail").truthy = false →
      (handleAnalyze E s inflight
        (FetchOutcome.response false (Except.ok data))).1.error =
          "Analysis failed. Please try again." ∧
      (handleAnalyze E s inflight
        (FetchOutcome.response false (Except.ok data))).1.analysis = JsVal.null) ∧
    (∀ e : String,
      (handleAnalyze E s inflight
        (FetchOutcome.response false (Except.error e))).1.error =
          "Analysis failed. Please try again." ∧
      (handleAnalyze E s inflight
        (FetchOutcome.response false (Except.error e))).1.analysis = JsVal.null) := by
  have hfr := applyEvents_frame inflight (submitting s)
  have hnull : (applyEvents (submitting s) inflight).analysis = JsVal.null := hfr.1
  have hgen : analysisFailedMessage ≠ "" := by decide
  refine ⟨?_, ?_, ?_⟩
  · intro data d hd hdet hne
    rw [handleAnalyze_ready E s inflight _ h]
    have ht : analyzeTry E (FetchOutcome.response false (Except.ok data))
        (applyEvents (submitting s) inflight) = Except.error d := by
      have htr : (JsVal.str d).truthy = true := by simp [JsVal.truthy, hne]
      simp [analyzeTry, Engine.member, hd, hdet, htr, Engine.toStr]
    have hs := settle_of_throw E _ _ d ht
    exact ⟨by rw [hs.2.2]; simp [hne], by rw [hs.1, hnull]⟩
  · intro data hd hdet
    rw [handleAnalyze_ready E s inflight _ h]
    have ht : analyzeTry E (FetchOutcome.response false (Except.ok data))
        (applyEvents (submitting s) inflight) = Except.error analysisFailedMessage := by
      simp [analyzeTry, Engine.member, hd, hdet, Engine.toStr]
    have hs := settle_of_throw E _ _ _ ht
    exact ⟨by rw [hs.2.2]; simp [hgen]; rfl, by rw [hs.1, hnull]⟩
  · intro e
    rw [handleAnalyze_ready E s inflight _ h]
    have ht : analyzeTry E (FetchOutcome.response false (Except.error e))
        (applyEvents (submitting s) inflight) = Except.error analysisFailedMessage := by
      simp [analyzeTry, Engine.member, JsVal.nullish, JsVal.get, JsVal.truthy, Engine.toStr]
    have hs := settle_of_throw E _ _ _ ht
    exact ⟨by rw [hs.2.2]; simp [hgen]; rfl, by rw [hs.1, hnull]⟩

/-- Witness of the kept part of C4: the second scenario, a 500 with a detail. -/
theorem handleAnalyze_error_detail_witness :
    (handleAnalyze v8 pdfState []
      (FetchOutcome.response false
        (Except.ok (JsVal.obj [("detail", JsVal.str "PDF parsing failed")])))).1.error =
      "PDF parsing failed" ∧
    (handleAnalyze v8 pdfState []
      (FetchOutcome.response false
        (Except.ok (JsVal.obj [("detail", JsVal.str "PDF parsing failed")])))).1.analysis =
      JsVal.null :=
  (handleAnalyze_error_detail v8 pdfState [] rfl).1
    (JsVal.obj [("detail", JsVal.str "PDF parsing failed")]) "PDF parsing failed"
    rfl rfl (by decide)

/-- C4 at a failing input: a non-success response whose body is the JSON text `null`.
`detail` is then `null`, reading `detail.detail` throws, and the message of that
`TypeError` is published instead of the generic one. -/
theorem handleAnalyze_null_error_body :
    isReadyToAnalyze textState = true ∧
    (handleAnalyze v8 textState []
      (FetchOutcome.response false (Except.ok JsVal.null))).1.error =
      "Cannot read properties of null (reading \x27detail\x27)" ∧
    (handleAnalyze v8 textState []
      (FetchOutcome.response false (Except.ok JsVal.null))).1.error ≠
      "Analysis failed. Please try again." ∧
    (handleAnalyze v8 textState []
      (FetchOutcome.response false (Except.ok JsVal.null))).1.analysis = JsVal.null := by
  have he : (handleAnalyze v8 textState []
      (FetchOutcome.response false (Except.ok JsVal.null))).1.error =
      "Cannot read properties of null (reading \x27detail\x27)" := by decide
  refine ⟨by decide, he, ?_, rfl⟩
  rw [he]
  decide

end CriticalThinker
